import Mathlib

/-!
Shallow embedding of `src/app.py` (a GA4-analytics-to-Discord digest service)
and verification of its specification.

The program is a single linear pipeline: fetch a report (country, activeUsers
rows), format it into a digest string, POST it to a Discord webhook; wrapped
in a polling scheduler and two Flask routes.  External effects (logging, the
outbound HTTP POST, the analytics API request) are embedded as explicit event
traces; the outcomes of the two external calls (the GA4 `run_report` call and
`requests.post`) are passed in as parameters, since they are library code
outside this repository.  A Python `try/except Exception` block is embedded
as an `Except`-valued body whose error branch is handled locally, so a
function whose result component is always `Except.ok` is one that never
propagates an exception to its caller.
-/

namespace App

/-- A row of the GA4 report as consumed by the code: the first dimension value
(country) and the first metric value (activeUsers, numeric-as-string). -/
structure ReportRow where
  country : String
  users : String
  deriving DecidableEq, Repr

/-- Opaque service-account credential handle produced by
`service_account.Credentials.from_service_account_info`. -/
structure Credentials where
  info : String
  deriving DecidableEq, Repr

/-- The immutable process-wide configuration resolved at module load
(`GA_PROPERTY_ID`, `DISCORD_WEBHOOK_URL`, parsed credentials). -/
structure Config where
  GA_PROPERTY_ID : String
  DISCORD_WEBHOOK_URL : String
  credentials : Credentials
  deriving DecidableEq, Repr

/-- The raw environment as seen by `os.getenv`: each variable is absent
(`none`) or present with a string value (possibly empty). -/
structure Env where
  GA_PROPERTY_ID : Option String
  DISCORD_WEBHOOK_URL : Option String
  GOOGLE_APPLICATION_CREDENTIALS_JSON : Option String
  deriving DecidableEq, Repr

/-- Python truthiness test `not x` for an optional string:
true exactly when the value is `None` or the empty string. -/
def falsy : Option String → Bool
  | none => true
  | some s => s.isEmpty

/-- Outcome of the single `requests.post` call: either an HTTP response
(any status code) or a raised network-level exception. -/
inductive PostOutcome where
  | response (status : Nat) (text : String)
  | exception (msg : String)
  deriving DecidableEq, Repr

/-- An HTTP response object as used by the code (`status_code`, `text`). -/
structure HttpResponse where
  status_code : Nat
  text : String
  deriving DecidableEq, Repr

/-- Observable effects of one function invocation, in order. -/
inductive Event where
  | logInfo (s : String)
  | logWarning (s : String)
  | logError (s : String)
  | analyticsRequest (property : String) (dimensions : List String)
      (metrics : List String) (start_date : String) (end_date : String)
  | httpPost (url : String) (jsonBody : List (String × String))
  deriving DecidableEq, Repr

/-- Is this event an outbound HTTP POST? -/
def Event.isPost : Event → Bool
  | Event.httpPost _ _ => true
  | _ => false

/-- Embedding of `requests.post(url, json=body)`: records the outbound call
and either returns the response object or raises (`Except.error`). -/
def requests_post (url : String) (jsonBody : List (String × String))
    (net : PostOutcome) : List Event × Except String HttpResponse :=
  match net with
  | PostOutcome.response status text =>
      ([Event.httpPost url jsonBody], Except.ok ⟨status, text⟩)
  | PostOutcome.exception e =>
      ([Event.httpPost url jsonBody], Except.error e)

/-- Embedding of `get_analytics_data` (src/app.py lines 53-80).
`provider` is the outcome of the GA4 `run_report` call: the ordered row list
on success, the exception text on failure.  Returns the event trace and the
string the function returns; the `except Exception` clause converts every
provider failure into the string `"Error fetching analytics data: " ++ e`,
so the result component is a plain `String` (nothing propagates). -/
def get_analytics_data (cfg : Config)
    (provider : Except String (List ReportRow)) : List Event × String :=
  let reqEvents : List Event :=
    [Event.logInfo "Attempting to fetch analytics data...",
     Event.logInfo "Sending request to GA4 API...",
     Event.analyticsRequest ("properties/" ++ cfg.GA_PROPERTY_ID)
       ["country"] ["activeUsers"] "7daysAgo" "today"]
  match provider with
  | Except.ok rows =>
      let message := rows.foldl
        (fun m row => m ++ row.country ++ ": " ++ row.users ++ " users\n")
        "🌍 GA4 Analytics Report:\n"
      (reqEvents ++ [Event.logInfo "Successfully fetched analytics data"], message)
  | Except.error e =>
      (reqEvents ++ [Event.logError ("Error fetching analytics data: " ++ e)],
       "Error fetching analytics data: " ++ e)

/-- Embedding of `send_to_discord` (src/app.py lines 82-98).
`message` is `Option String` because Python callers may pass `None`; the
guard `if not message` is `falsy`.  The second component is `Except.ok ()`
whenever the function returns normally; the `except Exception` branch logs
and falls through, so every branch ends in `Except.ok ()`. -/
def send_to_discord (url : String) (message : Option String)
    (net : PostOutcome) : List Event × Except String Unit :=
  if falsy message then
    ([Event.logWarning "No message to send to Discord"], Except.ok ())
  else
    let body : List (String × String) := [("content", message.getD "")]
    let attempt := Event.logInfo "Attempting to send message to Discord..." ::
      (requests_post url body net).1
    match (requests_post url body net).2 with
    | Except.ok resp =>
        if resp.status_code = 204 then
          (attempt ++ [Event.logInfo "Successfully sent message to Discord"],
           Except.ok ())
        else
          (attempt ++
            [Event.logError ("Failed to send message to Discord. Status code: "
               ++ toString resp.status_code),
             Event.logError ("Response content: " ++ resp.text)],
           Except.ok ())
    | Except.error e =>
        (attempt ++ [Event.logError ("Error sending to Discord: " ++ e)],
         Except.ok ())

/-- Embedding of `analytics_job` (src/app.py lines 100-105): fetch, then
notify with the fetched string, bracketed by log lines.  No return value. -/
def analytics_job (cfg : Config) (provider : Except String (List ReportRow))
    (net : PostOutcome) : List Event :=
  Event.logInfo "Starting analytics job..." ::
    (get_analytics_data cfg provider).1 ++
    (send_to_discord cfg.DISCORD_WEBHOOK_URL
      (some (get_analytics_data cfg provider).2) net).1 ++
    [Event.logInfo "Completed analytics job"]

/-- Embedding of the `/trigger` route handler `manual_trigger`
(src/app.py lines 107-111): runs the job synchronously, then returns the
static body with status 200.  The response pair is produced only together
with the complete job trace. -/
def manual_trigger (cfg : Config) (provider : Except String (List ReportRow))
    (net : PostOutcome) : List Event × String × Nat :=
  (Event.logInfo "Manual trigger endpoint called" ::
     analytics_job cfg provider net,
   "Triggered! Analytics job has been completed.", 200)

/-- Result of module-level startup (src/app.py lines 25-51): either the
process exits with a code, or the configuration is fully constructed. -/
inductive StartupResult where
  | exited (code : Nat)
  | started (cfg : Config)
  deriving DecidableEq, Repr

/-- Embedding of the module-level startup validation (src/app.py lines
25-51).  `json_loads` is the outcome of `json.loads` on the credential blob
and `from_service_account_info` the outcome of the Google credential
constructor; both are external library calls passed in as oracles.
`if not all([...])` is the disjunction of the three truthiness tests. -/
def startup (env : Env) (json_loads : String → Except String String)
    (from_service_account_info : String → Except String Credentials) :
    StartupResult :=
  if falsy env.GA_PROPERTY_ID || falsy env.DISCORD_WEBHOOK_URL ||
      falsy env.GOOGLE_APPLICATION_CREDENTIALS_JSON then
    StartupResult.exited 1
  else
    match json_loads (env.GOOGLE_APPLICATION_CREDENTIALS_JSON.getD "") with
    | Except.error _ => StartupResult.exited 1
    | Except.ok info =>
        match from_service_account_info info with
        | Except.error _ => StartupResult.exited 1
        | Except.ok creds =>
            StartupResult.started
              ⟨env.GA_PROPERTY_ID.getD "", env.DISCORD_WEBHOOK_URL.getD "",
               creds⟩

/-- What the whole process does: exits at startup, or serves (scheduler
thread started and Flask app listening) with the constructed config. -/
inductive ProcessOutcome where
  | exit (code : Nat)
  | serve (cfg : Config)
  deriving DecidableEq, Repr

/-- Embedding of the whole module execution including the `__main__` block
(src/app.py lines 127-134): module-level startup runs first; only if it did
not exit are the scheduler thread and the HTTP server started. -/
def main_process (env : Env) (json_loads : String → Except String String)
    (from_service_account_info : String → Except String Credentials) :
    ProcessOutcome :=
  match startup env json_loads from_service_account_info with
  | StartupResult.exited c => ProcessOutcome.exit c
  | StartupResult.started cfg => ProcessOutcome.serve cfg

/-- Scheduler-level effects of `run_scheduler` (src/app.py lines 113-125).
The job body is opaque at this level (`jobRun` / `runPending`). -/
inductive SchedEvent where
  | logInfo (s : String)
  | jobRun
  | register (minutes : Nat)
  | runPending
  | sleep (seconds : Nat)
  deriving DecidableEq, Repr

/-- The `while True` loop body of `run_scheduler`, unrolled `n` times:
each iteration is `schedule.run_pending()` then `time.sleep(60)`. -/
def scheduler_loop : Nat → List SchedEvent
  | 0 => []
  | n + 1 => SchedEvent.runPending :: SchedEvent.sleep 60 :: scheduler_loop n

/-- The loop condition of the `while True:` loop at each iteration.
It is the literal `True`; the loop body contains no `break` or `return`. -/
def scheduler_loop_condition (_iteration : Nat) : Bool := true

/-- Embedding of `run_scheduler` (src/app.py lines 113-125): the trace after
`n` completed loop iterations.  The job runs once immediately, then the
10-minute recurring job is registered, then the polling loop runs. -/
def run_scheduler_events (n : Nat) : List SchedEvent :=
  SchedEvent.logInfo "Starting scheduler..." ::
  SchedEvent.jobRun ::
  SchedEvent.register 10 ::
  SchedEvent.logInfo "Scheduled job to run every 10 minutes" ::
  scheduler_loop n

/-- Modelled from the spec side of C1 (spec.md section 8, Fetcher
formatting): the line the spec prescribes for one report row. -/
def specLine (r : ReportRow) : String :=
  r.country ++ ": " ++ r.users ++ " users\n"

/-- Modelled from the spec side of C1: the N prescribed lines concatenated
in input order. -/
def specLines : List ReportRow → String
  | [] => ""
  | r :: rs => specLine r ++ specLines rs

/-- Modelled from the spec side of C1: the fixed header followed by exactly
one line per row, in response order. -/
def spec_digest (rows : List ReportRow) : String :=
  "🌍 GA4 Analytics Report:\n" ++ specLines rows

/-- The message-building fold of `get_analytics_data` equals the initial
string followed by the spec-prescribed lines, one per row in order. -/
theorem foldl_digest_eq (rows : List ReportRow) (init : String) :
    rows.foldl (fun m row => m ++ row.country ++ ": " ++ row.users ++ " users\n") init
      = init ++ specLines rows := by
  induction rows generalizing init with
  | nil => simp [specLines, String.append_empty]
  | cons r rs ih =>
      rw [List.foldl_cons, ih]
      simp [specLines, specLine, String.append_assoc]

/-- A string that is not the empty literal has `isEmpty = false`. -/
theorem isEmpty_false_of_ne (s : String) (h : s ≠ "") : s.isEmpty = false := by
  cases hs : s.isEmpty
  · rfl
  · exact absurd ((String.isEmpty_iff s).mp hs) h

/-- Claim C1: for a provider response with N rows of (country, users) pairs,
`get_analytics_data` returns the fixed header line followed by exactly N
lines in response order, each exactly "country: users users\n"; for rows
[("US","120"), ("DE","45")] the result is the exact example string, and that
exact string is the JSON `content` of the POST inside `analytics_job`. -/
theorem C1_digest_format_and_delivery (cfg : Config) (rows : List ReportRow)
    (net : PostOutcome) :
    (get_analytics_data cfg (Except.ok rows)).2 = spec_digest rows ∧
    (get_analytics_data cfg (Except.ok [⟨"US", "120"⟩, ⟨"DE", "45"⟩])).2 =
      "🌍 GA4 Analytics Report:\nUS: 120 users\nDE: 45 users\n" ∧
    Event.httpPost cfg.DISCORD_WEBHOOK_URL
        [("content", "🌍 GA4 Analytics Report:\nUS: 120 users\nDE: 45 users\n")]
      ∈ analytics_job cfg (Except.ok [⟨"US", "120"⟩, ⟨"DE", "45"⟩]) net := by
  refine ⟨?_, rfl, ?_⟩
  · exact foldl_digest_eq rows "🌍 GA4 Analytics Report:\n"
  · have hne : ("🌍 GA4 Analytics Report:\nUS: 120 users\nDE: 45 users\n" : String).isEmpty
        = false := rfl
    cases net with
    | response status text =>
        by_cases h204 : status = 204 <;>
          simp [analytics_job, get_analytics_data, send_to_discord, falsy,
            requests_post, hne, h204]
    | exception msg =>
        simp [analytics_job, get_analytics_data, send_to_discord, falsy,
          requests_post, hne]

/-- Claim C2: for every error raised by the provider call,
`get_analytics_data` returns (does not propagate) a non-empty string that
contains the error description. -/
theorem C2_error_digest_nonempty (cfg : Config) (e : String) :
    (get_analytics_data cfg (Except.error e)).2 =
      "Error fetching analytics data: " ++ e ∧
    0 < (get_analytics_data cfg (Except.error e)).2.length ∧
    ∃ pre post, (get_analytics_data cfg (Except.error e)).2 = pre ++ e ++ post := by
  refine ⟨rfl, ?_, "Error fetching analytics data: ", "", ?_⟩
  · show 0 < (("Error fetching analytics data: " : String) ++ e).length
    rw [String.length_append]
    have h31 : ("Error fetching analytics data: " : String).length = 31 := rfl
    omega
  · show ("Error fetching analytics data: " : String) ++ e =
      "Error fetching analytics data: " ++ e ++ ""
    rw [String.append_empty]

/-- Claim C10: the digest returned by `get_analytics_data` on a successful
provider response is a function of the ordered rows alone: any two
configurations (property id, webhook, credentials) yield the identical
string for the same rows. -/
theorem C10_digest_deterministic (cfgA cfgB : Config) (rows : List ReportRow) :
    (get_analytics_data cfgA (Except.ok rows)).2 =
      (get_analytics_data cfgB (Except.ok rows)).2 := rfl

/-- Claim C3: for every non-empty message and every outcome of the POST,
`send_to_discord` returns normally (result component `Except.ok ()`); a 204
response is the only outcome logged as success, any other status is logged
as failure with status and response body, and a network-level exception is
caught and logged, never propagated. -/
theorem C3_notify_never_raises (url s : String) (net : PostOutcome)
    (h : s ≠ "") :
    (send_to_discord url (some s) net).2 = Except.ok () ∧
    (∀ status text, net = PostOutcome.response status text →
      (Event.logInfo "Successfully sent message to Discord"
          ∈ (send_to_discord url (some s) net).1 ↔ status = 204)) ∧
    (∀ status text, net = PostOutcome.response status text → status ≠ 204 →
      Event.logError ("Failed to send message to Discord. Status code: "
          ++ toString status) ∈ (send_to_discord url (some s) net).1 ∧
      Event.logError ("Response content: " ++ text)
          ∈ (send_to_discord url (some s) net).1) ∧
    (∀ e, net = PostOutcome.exception e →
      Event.logError ("Error sending to Discord: " ++ e)
          ∈ (send_to_discord url (some s) net).1) := by
  have hEmpty : s.isEmpty = false := isEmpty_false_of_ne s h
  refine ⟨?_, ?_, ?_, ?_⟩
  · cases net with
    | response status text =>
        by_cases h204 : status = 204 <;>
          simp [send_to_discord, falsy, hEmpty, requests_post, h204]
    | exception msg =>
        simp [send_to_discord, falsy, hEmpty, requests_post]
  · rintro status text rfl
    by_cases h204 : status = 204 <;>
      simp [send_to_discord, falsy, hEmpty, requests_post, h204]
  · rintro status text rfl h204
    simp [send_to_discord, falsy, hEmpty, requests_post, h204]
  · rintro e rfl
    simp [send_to_discord, falsy, hEmpty, requests_post]

/-- Witness for C3 at a concrete failing status. -/
theorem C3_witness :
    ("report" : String) ≠ "" ∧
    (send_to_discord "https://hooks.example/x" (some "report")
        (PostOutcome.response 500 "oops")).2 = Except.ok () :=
  ⟨by decide,
   (C3_notify_never_raises "https://hooks.example/x" "report"
      (PostOutcome.response 500 "oops") (by decide)).1⟩

/-- Claim C4: for every outcome of the fetch and notify steps, the /trigger
handler returns HTTP 200 with the static confirmation text, and the response
is produced only together with the complete fetch+notify job trace. -/
theorem C4_trigger_always_200 (cfg : Config)
    (provider : Except String (List ReportRow)) (net : PostOutcome) :
    (manual_trigger cfg provider net).2 =
      ("Triggered! Analytics job has been completed.", 200) ∧
    (manual_trigger cfg provider net).1 =
      Event.logInfo "Manual trigger endpoint called" ::
        analytics_job cfg provider net :=
  ⟨rfl, rfl⟩

/-- Claim C5: if any of the three required configuration values is missing
(absent or empty), or the credential blob fails to parse or to load, the
process exits with code 1 at startup and the server (with the scheduler) is
never started. -/
theorem C5_bad_config_no_server (env : Env)
    (json_loads : String → Except String String)
    (from_service_account_info : String → Except String Credentials)
    (h : falsy env.GA_PROPERTY_ID = true ∨ falsy env.DISCORD_WEBHOOK_URL = true ∨
         falsy env.GOOGLE_APPLICATION_CREDENTIALS_JSON = true ∨
         (∃ err, json_loads (env.GOOGLE_APPLICATION_CREDENTIALS_JSON.getD "")
            = Except.error err) ∨
         (∃ info err,
            json_loads (env.GOOGLE_APPLICATION_CREDENTIALS_JSON.getD "")
              = Except.ok info ∧
            from_service_account_info info = Except.error err)) :
    main_process env json_loads from_service_account_info
      = ProcessOutcome.exit 1 ∧
    ∀ cfg, main_process env json_loads from_service_account_info
      ≠ ProcessOutcome.serve cfg := by
  have hexit : main_process env json_loads from_service_account_info
      = ProcessOutcome.exit 1 := by
    rcases h with h1 | h2 | h3 | ⟨err, herr⟩ | ⟨info, err, hok, herr⟩
    · simp [main_process, startup, h1]
    · simp [main_process, startup, h2]
    · simp [main_process, startup, h3]
    · by_cases hf : falsy env.GA_PROPERTY_ID || falsy env.DISCORD_WEBHOOK_URL ||
          falsy env.GOOGLE_APPLICATION_CREDENTIALS_JSON
      · simp [main_process, startup, hf]
      · simp [main_process, startup, hf, herr]
    · by_cases hf : falsy env.GA_PROPERTY_ID || falsy env.DISCORD_WEBHOOK_URL ||
          falsy env.GOOGLE_APPLICATION_CREDENTIALS_JSON
      · simp [main_process, startup, hf]
      · simp [main_process, startup, hf, hok, herr]
  exact ⟨hexit, fun cfg hserve => by rw [hexit] at hserve; exact absurd hserve (by simp)⟩

/-- Witness for C5: GA_PROPERTY_ID absent, the other values present. -/
theorem C5_witness :
    falsy (none : Option String) = true ∧
    main_process ⟨none, some "https://hooks.example/x", some "cred-blob"⟩
        (fun s => Except.ok s) (fun s => Except.ok ⟨s⟩)
      = ProcessOutcome.exit 1 :=
  ⟨rfl,
   (C5_bad_config_no_server ⟨none, some "https://hooks.example/x", some "cred-blob"⟩
      (fun s => Except.ok s) (fun s => Except.ok ⟨s⟩) (Or.inl rfl)).1⟩

/-- Claim C6: called with the empty string, `send_to_discord` performs zero
outbound calls and raises nothing: it returns right after the warning log. -/
theorem C6_empty_message_skips (url : String) (net : PostOutcome) :
    send_to_discord url (some "") net =
      ([Event.logWarning "No message to send to Discord"], Except.ok ()) ∧
    (send_to_discord url (some "") net).1.filter Event.isPost = [] :=
  ⟨rfl, rfl⟩

/-- The unrolled polling loop is `n` repetitions of
`run_pending` then `sleep 60`. -/
theorem scheduler_loop_eq (n : Nat) :
    scheduler_loop n =
      (List.replicate n [SchedEvent.runPending, SchedEvent.sleep 60]).flatten := by
  induction n with
  | zero => rfl
  | succ n ih => simp [scheduler_loop, List.replicate_succ, ih]

/-- The polling loop itself never runs the job directly. -/
theorem scheduler_loop_count (n : Nat) :
    (scheduler_loop n).count SchedEvent.jobRun = 0 := by
  induction n with
  | zero => rfl
  | succ n ih => simp [scheduler_loop, List.count_cons, ih]

/-- Claim C7: the scheduler runs the job exactly once immediately on start,
then registers the recurring job at a 10-minute period, and enters a polling
loop whose every iteration is one pending-jobs check followed by a 60-second
sleep; the loop condition is constantly true, so there is no exit. -/
theorem C7_scheduler_shape (n : Nat) :
    run_scheduler_events n =
      [SchedEvent.logInfo "Starting scheduler...", SchedEvent.jobRun,
       SchedEvent.register 10,
       SchedEvent.logInfo "Scheduled job to run every 10 minutes"] ++
      (List.replicate n [SchedEvent.runPending, SchedEvent.sleep 60]).flatten ∧
    (run_scheduler_events n).count SchedEvent.jobRun = 1 ∧
    (run_scheduler_events n).count (SchedEvent.register 10) = 1 ∧
    (∀ k, scheduler_loop_condition k = true) := by
  refine ⟨?_, ?_, ?_, fun _ => rfl⟩
  · simp [run_scheduler_events, scheduler_loop_eq]
  · simp [run_scheduler_events, List.count_cons, scheduler_loop_count]
  · have hreg : (scheduler_loop n).count (SchedEvent.register 10) = 0 := by
      induction n with
      | zero => rfl
      | succ n ih => simp [scheduler_loop, List.count_cons, ih]
    simp [run_scheduler_events, List.count_cons, hreg]

/-- Claim C8: for every non-empty message, `send_to_discord` issues exactly
one outbound POST, to the configured webhook URL, with JSON body
consisting of the single field content = message. -/
theorem C8_single_post (url s : String) (net : PostOutcome) (h : s ≠ "") :
    (send_to_discord url (some s) net).1.filter Event.isPost =
      [Event.httpPost url [("content", s)]] := by
  have hEmpty : s.isEmpty = false := isEmpty_false_of_ne s h
  cases net with
  | response status text =>
      by_cases h204 : status = 204 <;>
        simp [send_to_discord, falsy, hEmpty, requests_post, h204,
          Event.isPost, List.filter]
  | exception msg =>
      simp [send_to_discord, falsy, hEmpty, requests_post, Event.isPost,
        List.filter]

/-- Witness for C8 at a concrete message and response. -/
theorem C8_witness :
    ("hello" : String) ≠ "" ∧
    (send_to_discord "https://hooks.example/y" (some "hello")
        (PostOutcome.response 204 "")).1.filter Event.isPost =
      [Event.httpPost "https://hooks.example/y" [("content", "hello")]] :=
  ⟨by decide,
   C8_single_post "https://hooks.example/y" "hello"
     (PostOutcome.response 204 "") (by decide)⟩

/-- Claim C9: the skip guard of `send_to_discord` fires on every falsy
message value, not only the empty string: whenever `falsy m` holds (m is
`None` or the empty string), the function performs zero outbound calls and
returns normally after the warning log; in particular `falsy none` holds. -/
theorem C9_falsy_skip (url : String) (net : PostOutcome) (m : Option String)
    (h : falsy m = true) :
    send_to_discord url m net =
      ([Event.logWarning "No message to send to Discord"], Except.ok ()) ∧
    (send_to_discord url m net).1.filter Event.isPost = [] ∧
    falsy none = true := by
  refine ⟨?_, ?_, rfl⟩ <;> simp [send_to_discord, h, Event.isPost]

/-- Witness for C9 at message = None. -/
theorem C9_witness :
    falsy (none : Option String) = true ∧
    send_to_discord "https://hooks.example/z" none (PostOutcome.response 204 "")
      = ([Event.logWarning "No message to send to Discord"], Except.ok ()) :=
  ⟨rfl,
   (C9_falsy_skip "https://hooks.example/z" (PostOutcome.response 204 "")
      none rfl).1⟩

end App
